import Mathlib

/-!
# Verification of the stash-management core (`src/app/src/lib/git/stash.ts`)

This file gives a shallow embedding of the stash-management module of the
repository in Lean 4 and proves properties of it.

Modelling conventions:

* The external git process (the "VCS Executor") is an oracle
  `Exec : List String → GitResult`: a pure function from an argument list to
  the exit code / stdout / stderr the process would report.  Every operation
  of the module is embedded as a value of `GitM α`, a reader (over `Exec`)
  plus writer (the ordered list of argument lists issued to the executor)
  plus exception (a raised `GitError`) monad.  This makes the sequencing of
  external invocations, and which of them happen before a raise, fully
  explicit.
* JavaScript strings are embedded as Lean `String`s (sequences of unicode
  scalar values); machine-level UTF-16 details are irrelevant to the
  properties proved here.
* The regular expression `/!!GitHub_Desktop<(.+)>$/` of the source is
  embedded by `reFindMatch`, a direct implementation of its JavaScript
  semantics: leftmost successful match position, `.` matching every
  character except the four line terminators, greedy capture forced by the
  end anchor `$` (the character after the capture must be the final `>` of
  the string).
* The helper modules of the repository that `stash.ts` imports but whose
  sources are not part of the verified core (`core.ts`'s `git` wrapper, the
  delimiter log parser, the staging collaborator, the model value objects)
  are modelled from the specification; each such definition carries a doc
  comment saying so.
-/

/-- The result of one external git invocation: exit code, stdout, stderr. -/
structure GitResult where
  exitCode : Int
  stdout : String
  stderr : String
deriving DecidableEq, Repr

/-- The VCS Executor oracle: what the external git process reports for a
given argument list (the repository path is fixed throughout). -/
def Exec : Type := List String → GitResult

/-- Modelled from the spec: the `GitError` raised by the `git` wrapper of
`core.ts` (not part of `src/`), carrying the failed result and the command
arguments for diagnostics. -/
structure GitError where
  result : GitResult
  args : List String
deriving DecidableEq, Repr

/-- The monad in which the stash operations are embedded: given the
executor oracle, an operation produces either a value or a raised
`GitError`, together with the ordered list of argument lists it issued to
the executor before finishing. -/
def GitM (α : Type) : Type := Exec → Except GitError α × List (List String)

def GitM.pure {α : Type} (a : α) : GitM α := fun _ => (Except.ok a, [])

def GitM.bind {α β : Type} (x : GitM α) (f : α → GitM β) : GitM β := fun exec =>
  match x exec with
  | (Except.ok a, log₁) =>
    match f a exec with
    | (r, log₂) => (r, log₁ ++ log₂)
  | (Except.error e, log₁) => (Except.error e, log₁)

/-- Raising a `GitError` (the embedding of `throw new GitError(...)`):
no further invocations happen, the error propagates through `GitM.bind`. -/
def GitM.throwError {α : Type} (e : GitError) : GitM α := fun _ => (Except.error e, [])

instance : Monad GitM where
  pure := GitM.pure
  bind := GitM.bind

theorem GitM.bind_def {α β : Type} (x : GitM α) (f : α → GitM β) :
    x >>= f = GitM.bind x f := rfl

theorem GitM.pure_def {α : Type} (a : α) :
    (Pure.pure a : GitM α) = GitM.pure a := rfl

/-- Modelled from the spec: the `git` wrapper of `core.ts` (not part of
`src/`).  It runs the executor once on `args`; when the reported exit code
is in the allow-list `successExitCodes` the result is returned, otherwise a
`GitError` is raised.  The invocation is recorded in either case. -/
def gitRun (args : List String) (successExitCodes : List Int) : GitM GitResult :=
  fun exec =>
    (if (exec args).exitCode ∈ successExitCodes then Except.ok (exec args)
     else Except.error { result := exec args, args := args },
     [args])

/-- A JavaScript regular-expression line terminator: the characters `.`
does not match (newline, carriage return, U+2028, U+2029). -/
def isLineTerminator (c : Char) : Bool :=
  c = '\n' || c = '\r' || c = Char.ofNat 0x2028 || c = Char.ofNat 0x2029

/-- Split a character list at every occurrence of a single separator
character, like JavaScript `String.prototype.split` with a one-character
separator: the empty string yields `[[]]`, a trailing separator yields a
trailing empty piece. -/
def splitOnChar (sep : Char) : List Char → List (List Char)
  | [] => [[]]
  | c :: cs =>
    if c = sep then [] :: splitOnChar sep cs
    else
      match splitOnChar sep cs with
      | [] => [[c]]
      | h :: t => (c :: h) :: t

/-- Trim leading and trailing whitespace, the embedding of
`String.prototype.trim` (restricted to the ASCII whitespace git output can
contain). -/
def strTrim (s : String) : String :=
  String.mk (((s.data.dropWhile Char.isWhitespace).reverse.dropWhile Char.isWhitespace).reverse)

-- A few sanity checks of the utility functions.
example : splitOnChar ',' "a,b,".data = ["a".data, "b".data, ([] : List Char)] := by decide
example : strTrim " ab\n" = "ab" := by decide

/-! ## The marker message and its classifier -/

/-- The exported constant `DesktopStashEntryMarker = '!!GitHub_Desktop'`. -/
def DesktopStashEntryMarker : String := "!!GitHub_Desktop"

/-- The characters the regular expression
`/!!GitHub_Desktop<(.+)>$/` must find before the capture starts: the
marker literal followed by the opening bracket. -/
def markerOpen : List Char := "!!GitHub_Desktop<".data

/-- The tail of a match attempt of `desktopStashEntryMessageRe`: `t` is the
part of the message after an occurrence of `markerOpen`, running to the end
of the message.  The pattern `(.+)>$` matches `t` exactly when `t` ends in
`>` (the `$` anchor pins that `>` to be the final character), and the rest
of `t` — the greedy capture — is non-empty and free of the line terminators
`.` cannot match.  Returns the capture. -/
def matchTailAt (t : List Char) : Option (List Char) :=
  if 2 ≤ t.length && t.getLast? == some '>' && t.dropLast.all (fun c => !isLineTerminator c)
  then some t.dropLast else none

/-- The embedding of `desktopStashEntryMessageRe.exec`: scan for the leftmost position at
which `/!!GitHub_Desktop<(.+)>$/` matches, returning the capture group.
Like a JavaScript regex engine, when the marker occurs at a position but
the rest of the pattern cannot match there, the scan resumes one character
further. -/
def reFindMatch : List Char → Option (List Char)
  | [] => none
  | c :: cs =>
    match (if markerOpen.isPrefixOf (c :: cs)
           then matchTailAt ((c :: cs).drop markerOpen.length)
           else none) with
    | some cap => some cap
    | none => reFindMatch cs

/-- The classifier.  Source:
```
function extractBranchFromMessage(message: string): string | null {
  const match = desktopStashEntryMessageRe.exec(message)
  return match === null || match[1].length === 0 ? null : match[1]
}
``` -/
def extractBranchFromMessage (message : String) : Option String :=
  match reFindMatch message.data with
  | none => none
  | some cap => if cap.length = 0 then none else some (String.mk cap)

/-- The constructor `createDesktopStashMessage`: the marker message tagged with a branch. -/
def createDesktopStashMessage (branchName : String) : String :=
  DesktopStashEntryMarker ++ "<" ++ branchName ++ ">"

-- Sanity checks of the classifier against the behaviour of the JavaScript
-- regular expression.
example : extractBranchFromMessage "!!GitHub_Desktop<master>" = some "master" := by decide
example : extractBranchFromMessage "On tip: !!GitHub_Desktop<tip>" = some "tip" := by decide
example : extractBranchFromMessage "!!GitHub_Desktop<>" = none := by decide
example : extractBranchFromMessage "WIP on master" = none := by decide
example : extractBranchFromMessage "!!GitHub_Desktop<a>b>" = some "a>b" := by decide
example : extractBranchFromMessage "!!GitHub_Desktop<x> " = none := by decide

/-! ## The data model -/

/-- Modelled from the spec: the lazily-loaded file detail of a stash entry
(`models/stash-entry.ts` is not part of `src/`); every entry produced by
the catalog starts in the not-loaded state, so that is the only state the
claims need. -/
inductive StashedFileChanges where
  | notLoaded
deriving DecidableEq, Repr

/-- An app-owned stash entry (`IStashEntry`). -/
structure StashEntry where
  name : String
  stashSha : String
  branchName : String
  tree : String
  parents : List String
  files : StashedFileChanges
deriving DecidableEq, Repr

/-- The raw field tuple one parsed reflog record carries, keyed as in the
`createLogParser` call of `getStashes`. -/
structure RawEntry where
  name : String
  stashSha : String
  message : String
  tree : String
  parents : String
deriving DecidableEq, Repr

/-- The catalog result `StashResult`.  `stashEntryCount` is an integer because the source
computes it as `entries.length - 1`, which JavaScript evaluates to `-1`
when `entries` is empty. -/
structure StashResult where
  desktopEntries : List StashEntry
  stashEntryCount : Int
deriving DecidableEq, Repr

/-- Modelled from the spec: the branch value object (plain data). -/
structure Branch where
  name : String
deriving DecidableEq, Repr

/-- The embedding of the TypeScript parameter type `Branch | string` with
its `typeof branch === 'string' ? branch : branch.name` coercion. -/
def branchNameOf : Branch ⊕ String → String
  | Sum.inl b => b.name
  | Sum.inr s => s

/-- Modelled from the spec: a working-directory file-change record as far
as this core looks at it (`withIncludeAll` toggles full inclusion). -/
structure WorkingDirectoryFileChange where
  path : String
  includeAll : Bool
deriving DecidableEq, Repr

def WorkingDirectoryFileChange.withIncludeAll
    (f : WorkingDirectoryFileChange) (b : Bool) : WorkingDirectoryFileChange :=
  { f with includeAll := b }

/-! ## The delimiter log parser (modelled from the spec) -/

/-- Modelled from the spec: the field separator the delimiter log parser
(`git-delimiter-parser.ts`, not part of `src/`) places between the format
specifiers of one record. -/
def logFieldSeparator : Char := Char.ofNat 0

/-- Modelled from the spec: the record separator of the delimiter log
parser.  Because the requested stream ends with a final record separator,
splitting on it always yields one synthetic trailing record with no useful
content, which the parser includes in its raw output. -/
def logRecordSeparator : Char := Char.ofNat 1

/-- Modelled from the spec: one raw record is split into the five
requested fields in the order of the `createLogParser` call of
`getStashes` (`%gD`, `%H`, `%gs`, `%T`, `%P`); a missing field reads as
the empty string. -/
def parseLogRecord (r : List Char) : RawEntry :=
  let fields := splitOnChar logFieldSeparator r
  { name := String.mk (fields.getD 0 [])
    stashSha := String.mk (fields.getD 1 [])
    message := String.mk (fields.getD 2 [])
    tree := String.mk (fields.getD 3 [])
    parents := String.mk (fields.getD 4 []) }

/-- Modelled from the spec: the `parse` function the delimiter log parser
returns — split the stream into records at every record separator and each
record into fields. -/
def parseLog (value : String) : List RawEntry :=
  (splitOnChar logRecordSeparator value.data).map parseLogRecord

/-- Modelled from the spec: the `formatArgs` the delimiter log parser
returns for the requested fields (their exact shape is opaque to every
property proved here; they only identify the list query's argument list). -/
def logFormatArgs : List String :=
  ["-z", "--format=%gD%x00%H%x00%gs%x00%T%x00%P"]

/-- The argument list of the stash reflog list query issued by
`getStashes`. -/
def getStashesArgs : List String :=
  ["log", "-g"] ++ logFormatArgs ++ ["refs/stash"]

/-! ## The stash catalog -/

/-- The classification step of the `getStashes` loop: a parsed record
becomes a desktop entry exactly when `extractBranchFromMessage` recognises
its message; its `parents` field is split on spaces when non-empty. -/
def toDesktopEntry (e : RawEntry) : Option StashEntry :=
  match extractBranchFromMessage e.message with
  | none => none
  | some branchName =>
    some { name := e.name
           stashSha := e.stashSha
           branchName := branchName
           tree := e.tree
           parents :=
             if 0 < e.parents.length
             then (splitOnChar ' ' e.parents.data).map String.mk
             else []
           files := StashedFileChanges.notLoaded }

/-- The catalog query `getStashes`, generalised over the parse function the delimiter log
parser supplies (the parser is a collaborator whose source is outside the
verified core).  The reflog list query allows exit codes 0 and 128; exit
code 128 means there is no `refs/stash` reflog and yields the empty
result.  Otherwise the stream is parsed, records whose message carries the
desktop marker are collected in order, and the total count is the number
of parsed records minus one (excluding the synthetic trailing record). -/
def getStashesWith (parse : String → List RawEntry) : GitM StashResult := do
  let result ← gitRun getStashesArgs [0, 128]
  if result.exitCode = 128 then
    return { desktopEntries := [], stashEntryCount := 0 }
  else
    let entries := parse result.stdout
    let desktopEntries := entries.filterMap toDesktopEntry
    return { desktopEntries := desktopEntries,
             stashEntryCount := (entries.length : Int) - 1 }

/-- The catalog query `getStashes` with the modelled delimiter log parser. -/
def getStashes : GitM StashResult := getStashesWith parseLog

/-- The derived query `getLastDesktopStashEntryForBranch`: first (most recent) desktop entry
of the LIFO-ordered list whose branch matches, else null. -/
def getLastDesktopStashEntryForBranch (branch : Branch ⊕ String) : GitM (Option StashEntry) := do
  let stash ← getStashes
  let branchName := branchNameOf branch
  return stash.desktopEntries.find? (fun s => s.branchName == branchName)

/-- The derived query `getStashEntryMatchingSha`: desktop entry with the given sha, else
null. -/
def getStashEntryMatchingSha (sha : String) : GitM (Option StashEntry) := do
  let stash ← getStashes
  return stash.desktopEntries.find? (fun e => e.stashSha == sha)

/-! ## The mutation sequencer -/

/-- Modelled from the spec: the file-staging collaborator
(`update-index.ts`, not part of `src/`) — marks the given files as fully
included before the snapshot; no return value is consumed and it issues no
stash-list command. -/
def stageFiles (_files : List WorkingDirectoryFileChange) : GitM Unit := GitM.pure ()

/-- Split a character list at every line terminator, so that the pieces
begin exactly at the positions where the JavaScript multiline anchor `^`
matches (the start of the string and every position right after a line
terminator). -/
def splitOnLineBreaks : List Char → List (List Char)
  | [] => [[]]
  | c :: cs =>
    if isLineTerminator c then [] :: splitOnLineBreaks cs
    else
      match splitOnLineBreaks cs with
      | [] => [[c]]
      | h :: t => (c :: h) :: t

/-- The `/^error: /m` test of `createDesktopStashEntry`: does some line of
`stderr` begin with `error: `? -/
def errorPrefixMatches (stderr : String) : Bool :=
  (splitOnLineBreaks stderr.data).any (fun l => "error: ".data.isPrefixOf l)

/-- The create operation `createDesktopStashEntry`: stage the untracked files, then
`stash push -m <marker message>` allowing exit codes 0 and 1.  On exit
code 1 a line of stderr beginning with `error: ` is fatal, otherwise the
run is a logged soft success.  A stdout of exactly
`"No local changes to save\n"` means no stash was created. -/
def createDesktopStashEntry (branch : Branch ⊕ String)
    (untrackedFilesToStage : List WorkingDirectoryFileChange) : GitM Bool := do
  let fullySelectedUntrackedFiles :=
    untrackedFilesToStage.map (fun x => x.withIncludeAll true)
  stageFiles fullySelectedUntrackedFiles
  let branchName := branchNameOf branch
  let message := createDesktopStashMessage branchName
  let args := ["stash", "push", "-m", message]
  let result ← gitRun args [0, 1]
  if result.exitCode = 1 then
    if errorPrefixMatches result.stderr then
      GitM.throwError { result := result, args := args }
    -- otherwise: log.info and continue, a valid stash was created
  if result.stdout = "No local changes to save\n" then
    return false
  return true

/-- The drop operation `dropDesktopStashEntry`: resolve the sha to its current positional
name; when no desktop entry matches, do nothing. -/
def dropDesktopStashEntry (stashSha : String) : GitM Unit := do
  let entryToDelete ← getStashEntryMatchingSha stashSha
  match entryToDelete with
  | some entry =>
    let args := ["stash", "drop", entry.name]
    let _ ← gitRun args [0]
    return ()
  | none => return ()

/-- The pop operation `popStashEntry`: resolve the sha, `stash pop --quiet` allowing exit
codes 0 and 1.  Exit code 1 with non-empty stderr is fatal; exit code 1
with empty stderr is the conflict quirk — the applied but not auto-dropped
entry is dropped explicitly. -/
def popStashEntry (stashSha : String) : GitM Unit := do
  let stashToPop ← getStashEntryMatchingSha stashSha
  match stashToPop with
  | some stash => do
    let args := ["stash", "pop", "--quiet", stash.name]
    let result ← gitRun args [0, 1]
    if result.exitCode = 1 then
      if 0 < result.stderr.length then
        GitM.throwError { result := result, args := args }
      -- log.info: popped successfully despite the exit code
      dropDesktopStashEntry stashSha
  | none => return ()

/-- The move operation `moveStashEntry`: create a commit object for the stash tree with a
message tagged for the destination branch, register it with
`stash store`, then drop the original entry. -/
def moveStashEntry (entry : StashEntry) (branchName : String) : GitM Unit := do
  let message := "On " ++ branchName ++ ": " ++ createDesktopStashMessage branchName
  let parentArgs := entry.parents.flatMap (fun p => ["-p", p])
  let commitResult ← gitRun
    (["commit-tree"] ++ parentArgs ++ ["-m", message, "--no-gpg-sign", entry.tree]) [0]
  let commitId := commitResult.stdout
  let _ ← gitRun (["stash", "store", "-m", message, strTrim commitId]) [0]
  dropDesktopStashEntry entry.stashSha

/-! ## Lemmas about the marker classifier -/

theorem markerOpen_cons : markerOpen = '!' :: "!GitHub_Desktop<".data := rfl

theorem matchTailAt_concat (b : List Char) (hne : b ≠ [])
    (hall : b.all (fun c => !isLineTerminator c) = true) :
    matchTailAt (b ++ ['>']) = some b := by
  unfold matchTailAt
  rw [if_pos]
  · simp
  · have hlen : 0 < b.length := List.length_pos.mpr hne
    simp [List.getLast?_concat, hall]
    omega

theorem matchTailAt_eq_some (t cap : List Char) (h : matchTailAt t = some cap) :
    t = cap ++ ['>'] ∧ cap ≠ [] ∧ cap.all (fun c => !isLineTerminator c) = true := by
  unfold matchTailAt at h
  split at h
  case isTrue hc =>
    rw [Bool.and_eq_true, Bool.and_eq_true] at hc
    obtain ⟨⟨hlen, hlast⟩, hall⟩ := hc
    have hlen2 : 2 ≤ t.length := of_decide_eq_true hlen
    have hlast2 : t.getLast? = some '>' := by simpa using hlast
    injection h with h1
    subst h1
    obtain ⟨ys, hys⟩ := List.getLast?_eq_some_iff.mp hlast2
    subst hys
    refine ⟨by simp, ?_, hall⟩
    intro hnil
    rw [List.dropLast_concat] at hnil
    subst hnil
    simp at hlen2
  case isFalse => exact absurd h (by simp)

theorem isPrefixOf_append_self (l t : List Char) : l.isPrefixOf (l ++ t) = true := by
  simp

/-- When the pattern tail matches right after a leading `markerOpen`, the
scan succeeds at position 0 with that capture. -/
theorem reFindMatch_marker (t cap : List Char) (h : matchTailAt t = some cap) :
    reFindMatch (markerOpen ++ t) = some cap := by
  have hgoal : markerOpen ++ t = '!' :: ("!GitHub_Desktop<".data ++ t) := by
    rw [markerOpen_cons, List.cons_append]
  have hpre : markerOpen.isPrefixOf ('!' :: ("!GitHub_Desktop<".data ++ t)) = true := by
    rw [← hgoal]; exact isPrefixOf_append_self _ _
  have hdrop : List.drop markerOpen.length ('!' :: ("!GitHub_Desktop<".data ++ t)) = t := by
    rw [← hgoal]; exact List.drop_left _ _
  rw [hgoal, reFindMatch, hpre, if_pos rfl, hdrop, h]

/-- The scan skips over any stretch of characters that contains no `!`,
since every occurrence of `markerOpen` begins with one. -/
theorem reFindMatch_skip (pre rest : List Char) (h : ∀ c ∈ pre, c ≠ '!') :
    reFindMatch (pre ++ rest) = reFindMatch rest := by
  induction pre with
  | nil => rfl
  | cons c cs ih =>
    have hc : ('!' == c) = false := by
      have := Ne.symm (h c (by simp))
      simp [this]
    have hnp : markerOpen.isPrefixOf (c :: (cs ++ rest)) = false := by
      rw [markerOpen_cons, List.isPrefixOf_cons₂, hc]
      simp
    rw [List.cons_append, reFindMatch, hnp]
    simp only [Bool.false_eq_true, if_false]
    exact ih (fun x hx => h x (List.mem_cons_of_mem _ hx))

/-- Soundness of the scan: a successful match can only come from a
well-formed marker suffix — the message ends in `markerOpen`, the
(non-empty, line-terminator-free) capture, and the final `>`. -/
theorem reFindMatch_sound (l : List Char) (cap : List Char) (h : reFindMatch l = some cap) :
    ∃ pre, l = pre ++ markerOpen ++ cap ++ ['>'] ∧ cap ≠ [] ∧
      cap.all (fun c => !isLineTerminator c) = true := by
  induction l with
  | nil => simp [reFindMatch] at h
  | cons c cs ih =>
    rw [reFindMatch] at h
    split at h
    case h_1 x heq =>
      injection h with h1
      subst h1
      split at heq
      case isTrue hp =>
        obtain ⟨t, ht⟩ := List.isPrefixOf_iff_prefix.mp hp
        rw [← ht] at heq
        rw [List.drop_left] at heq
        obtain ⟨h1, h2, h3⟩ := matchTailAt_eq_some _ _ heq
        exact ⟨[], by rw [← ht, h1]; simp, h2, h3⟩
      case isFalse => exact absurd heq (by simp)
    case h_2 heq =>
      obtain ⟨pre, hpre, h2, h3⟩ := ih h
      exact ⟨c :: pre, by rw [hpre]; simp, h2, h3⟩

/-- The character data of a grammar-1 marker message. -/
theorem grammar1_data (b : String) :
    (DesktopStashEntryMarker ++ "<" ++ b ++ ">").data = markerOpen ++ (b.data ++ ['>']) := by
  have h1 : (DesktopStashEntryMarker ++ "<" ++ b ++ ">").data
      = ("!!GitHub_Desktop".data ++ ['<']) ++ (b.data ++ ['>']) := by
    simp [DesktopStashEntryMarker, String.data_append,
      show "<".data = ['<'] from rfl, show ">".data = ['>'] from rfl]
  rw [h1, show "!!GitHub_Desktop".data ++ ['<'] = markerOpen from by decide]

theorem data_ne_nil_of_ne_empty (b : String) (hne : b ≠ "") : b.data ≠ [] :=
  fun hx => hne (String.ext hx)

/-- Grammar 1: the classifier recovers the branch from a whole-string
marker message, for every non-empty branch free of line terminators —
including branches containing `<` or `>`. -/
theorem extract_grammar1 (b : String) (hne : b ≠ "")
    (hall : b.data.all (fun c => !isLineTerminator c) = true) :
    extractBranchFromMessage (DesktopStashEntryMarker ++ "<" ++ b ++ ">") = some b := by
  have hbd : b.data ≠ [] := data_ne_nil_of_ne_empty b hne
  unfold extractBranchFromMessage
  rw [grammar1_data b, reFindMatch_marker _ _ (matchTailAt_concat b.data hbd hall)]
  show (if b.data.length = 0 then none else some (String.mk b.data)) = some b
  rw [if_neg (fun h => hbd (List.length_eq_zero.mp h))]

/-- Grammar 2: the classifier recovers the branch from an
`On X: !!GitHub_Desktop<B>` message whenever the prefix `On X: ` cannot
contain a marker occurrence of its own (no `!` in `X`). -/
theorem extract_grammar2 (x b : String) (hne : b ≠ "")
    (hall : b.data.all (fun c => !isLineTerminator c) = true)
    (hbang : '!' ∉ x.data) :
    extractBranchFromMessage ("On " ++ x ++ ": " ++ (DesktopStashEntryMarker ++ "<" ++ b ++ ">"))
      = some b := by
  have hbd : b.data ≠ [] := data_ne_nil_of_ne_empty b hne
  have hdata : ("On " ++ x ++ ": " ++ (DesktopStashEntryMarker ++ "<" ++ b ++ ">")).data
      = ("On ".data ++ x.data ++ ": ".data) ++ (markerOpen ++ (b.data ++ ['>'])) := by
    rw [show ("On " ++ x ++ ": " ++ (DesktopStashEntryMarker ++ "<" ++ b ++ ">")).data
        = "On ".data ++ (x.data ++ (": ".data ++ (DesktopStashEntryMarker ++ "<" ++ b ++ ">").data))
      from by simp [String.data_append], grammar1_data b]
    simp
  have hOn : ∀ c ∈ "On ".data, c ≠ '!' := by decide
  have hColon : ∀ c ∈ ": ".data, c ≠ '!' := by decide
  have hskip : ∀ c ∈ "On ".data ++ x.data ++ ": ".data, c ≠ '!' := by
    intro c hc
    rcases List.mem_append.mp hc with hc2 | hc2
    · rcases List.mem_append.mp hc2 with hc3 | hc3
      · exact hOn c hc3
      · exact fun heq => hbang (heq ▸ hc3)
    · exact hColon c hc2
  unfold extractBranchFromMessage
  rw [hdata, reFindMatch_skip _ _ hskip,
    reFindMatch_marker _ _ (matchTailAt_concat b.data hbd hall)]
  show (if b.data.length = 0 then none else some (String.mk b.data)) = some b
  rw [if_neg (fun h => hbd (List.length_eq_zero.mp h))]

/-- Whatever the classifier returns came from a well-formed marker suffix
of the message. -/
theorem extract_sound (m b : String) (h : extractBranchFromMessage m = some b) :
    b ≠ "" ∧ b.data.all (fun c => !isLineTerminator c) = true ∧
    ∃ p, m.data = p ++ markerOpen ++ b.data ++ ['>'] := by
  unfold extractBranchFromMessage at h
  cases hr : reFindMatch m.data with
  | none => rw [hr] at h; exact absurd h (by simp)
  | some cap =>
    rw [hr] at h
    dsimp only at h
    by_cases hz : cap.length = 0
    · rw [if_pos hz] at h; exact absurd h (by simp)
    · rw [if_neg hz] at h
      injection h with h1
      obtain ⟨pre, hpre, hne, hall⟩ := reFindMatch_sound _ _ hr
      subst h1
      refine ⟨?_, hall, pre, ?_⟩
      · intro he
        exact hne (by rw [show cap = (String.mk cap).data from rfl, he])
      · rw [hpre]

/-! ## Claim C1 -/

/-- Claim C1 (amended).  The classifier `extractBranchFromMessage`:
(1) on a whole-string marker message `!!GitHub_Desktop<B>` with `B`
non-empty and free of regex line terminators, returns exactly `B`;
(2) on an extended message `On X: !!GitHub_Desktop<B>` with such a `B`
and no `!` occurring in `X` (so the leftmost marker occurrence is the
intended one), returns exactly `B`;
(3) conversely, whenever it returns a branch `B`, the message ends with
`!!GitHub_Desktop<B>`, `B` is non-empty and free of line terminators — so
every message without such a marker suffix yields `null`. -/
theorem classifier_marker_grammar :
    (∀ b : String, b ≠ "" → b.data.all (fun c => !isLineTerminator c) = true →
      extractBranchFromMessage (DesktopStashEntryMarker ++ "<" ++ b ++ ">") = some b) ∧
    (∀ x b : String, b ≠ "" → b.data.all (fun c => !isLineTerminator c) = true →
      '!' ∉ x.data →
      extractBranchFromMessage ("On " ++ x ++ ": " ++ (DesktopStashEntryMarker ++ "<" ++ b ++ ">"))
        = some b) ∧
    (∀ m b : String, extractBranchFromMessage m = some b →
      b ≠ "" ∧ b.data.all (fun c => !isLineTerminator c) = true ∧
      ∃ p, m.data = p ++ markerOpen ++ b.data ++ ['>']) :=
  ⟨extract_grammar1, extract_grammar2, extract_sound⟩

/-- Witness for C1: the three parts of `classifier_marker_grammar`
evaluated at concrete messages. -/
theorem classifier_marker_grammar_witness :
    extractBranchFromMessage (DesktopStashEntryMarker ++ "<" ++ "main" ++ ">") = some "main" ∧
    extractBranchFromMessage
      ("On " ++ "dev" ++ ": " ++ (DesktopStashEntryMarker ++ "<" ++ "dev" ++ ">")) = some "dev" ∧
    ("fix" ≠ "" ∧ "fix".data.all (fun c => !isLineTerminator c) = true ∧
      ∃ p, ("x!!GitHub_Desktop<fix>" : String).data = p ++ markerOpen ++ "fix".data ++ ['>']) :=
  ⟨classifier_marker_grammar.1 "main" (by decide) (by decide),
   classifier_marker_grammar.2.1 "dev" "dev" (by decide) (by decide) (by decide),
   classifier_marker_grammar.2.2 "x!!GitHub_Desktop<fix>" "fix" (by decide)⟩

/-- Counterexample to C1 as stated.  First part: the message
`!!GitHub_Desktop<a\nb>` matches the grammar `!!GitHub_Desktop<B>` with
the non-empty payload `B = "a\nb"`, yet the classifier returns `null`
(the regex `.` cannot cross a newline), not `B`.  Second part: the
message `x!!GitHub_Desktop<b>` matches neither whole-string grammar (it
begins with `x`, not with the marker and not with `On `), yet the
classifier returns `"b"`, not `null` (the regex is only anchored at the
end of the message). -/
theorem classifier_marker_grammar_counterexample :
    ("a\nb" ≠ "" ∧
      extractBranchFromMessage (DesktopStashEntryMarker ++ "<" ++ "a\nb" ++ ">") = none) ∧
    extractBranchFromMessage ("x" ++ (DesktopStashEntryMarker ++ "<" ++ "b" ++ ">")) = some "b" := by
  decide

/-! ## Claim C9 -/

/-- Claim C9 (amended).  The constructor/classifier round trip: for every
branch name `b` that is non-empty and contains no regex line terminator
(newline, carriage return, U+2028, U+2029),
`extractBranchFromMessage (createDesktopStashMessage b) = some b` — even
when `b` contains `<` or `>` characters. -/
theorem createMessage_extract_roundtrip (b : String) (hne : b ≠ "")
    (hall : b.data.all (fun c => !isLineTerminator c) = true) :
    extractBranchFromMessage (createDesktopStashMessage b) = some b :=
  extract_grammar1 b hne hall

/-- Witness for C9: the round trip on a branch name containing both `<`
and `>`. -/
theorem createMessage_extract_roundtrip_witness :
    extractBranchFromMessage (createDesktopStashMessage "fix<1>/wip") = some "fix<1>/wip" :=
  createMessage_extract_roundtrip "fix<1>/wip" (by decide) (by decide)

/-- Counterexample to C9 as stated: `b = "a\rb"` is non-empty and contains
no newline character, yet the round trip returns `null` — the JavaScript
`.` also refuses to match a carriage return (and U+2028/U+2029), so the
claim's "contains no newline" hypothesis is too weak. -/
theorem createMessage_extract_roundtrip_counterexample :
    "a\rb" ≠ "" ∧ '\n' ∉ "a\rb".data ∧
    extractBranchFromMessage (createDesktopStashMessage "a\rb") = none := by
  decide

/-! ## Evaluation lemmas for the embedded operations -/

theorem getStashesWith_ok (parse : String → List RawEntry) (exec : Exec) (s se : String)
    (hlog : exec getStashesArgs = { exitCode := 0, stdout := s, stderr := se }) :
    getStashesWith parse exec =
      (Except.ok { desktopEntries := (parse s).filterMap toDesktopEntry,
                   stashEntryCount := ((parse s).length : Int) - 1 },
       [getStashesArgs]) := by
  unfold getStashesWith
  simp [GitM.bind_def, GitM.bind, GitM.pure_def, GitM.pure, gitRun, hlog]

theorem getStashesWith_noReflog (parse : String → List RawEntry) (exec : Exec) (s se : String)
    (hlog : exec getStashesArgs = { exitCode := 128, stdout := s, stderr := se }) :
    getStashesWith parse exec =
      (Except.ok { desktopEntries := [], stashEntryCount := 0 }, [getStashesArgs]) := by
  unfold getStashesWith
  simp [GitM.bind_def, GitM.bind, GitM.pure_def, GitM.pure, gitRun, hlog]

theorem getStashesWith_fatal (parse : String → List RawEntry) (exec : Exec) (c : Int)
    (s se : String) (hlog : exec getStashesArgs = { exitCode := c, stdout := s, stderr := se })
    (h0 : c ≠ 0) (h128 : c ≠ 128) :
    getStashesWith parse exec =
      (Except.error { result := { exitCode := c, stdout := s, stderr := se },
                      args := getStashesArgs },
       [getStashesArgs]) := by
  unfold getStashesWith
  simp [GitM.bind_def, GitM.bind, GitM.pure_def, GitM.pure, gitRun, hlog, h0, h128]

theorem getStashes_ok (exec : Exec) (s se : String)
    (hlog : exec getStashesArgs = { exitCode := 0, stdout := s, stderr := se }) :
    getStashes exec =
      (Except.ok { desktopEntries := (parseLog s).filterMap toDesktopEntry,
                   stashEntryCount := ((parseLog s).length : Int) - 1 },
       [getStashesArgs]) :=
  getStashesWith_ok parseLog exec s se hlog

theorem getStashEntryMatchingSha_ok (exec : Exec) (sha s se : String)
    (hlog : exec getStashesArgs = { exitCode := 0, stdout := s, stderr := se }) :
    getStashEntryMatchingSha sha exec =
      (Except.ok (((parseLog s).filterMap toDesktopEntry).find? (fun e => e.stashSha == sha)),
       [getStashesArgs]) := by
  unfold getStashEntryMatchingSha
  simp [GitM.bind_def, GitM.bind, GitM.pure_def, GitM.pure, getStashes_ok exec s se hlog]

theorem dropDesktopStashEntry_absent (exec : Exec) (sha s se : String)
    (hlog : exec getStashesArgs = { exitCode := 0, stdout := s, stderr := se })
    (hfind : ((parseLog s).filterMap toDesktopEntry).find? (fun e => e.stashSha == sha) = none) :
    dropDesktopStashEntry sha exec = (Except.ok (), [getStashesArgs]) := by
  unfold dropDesktopStashEntry
  simp [GitM.bind_def, GitM.bind, GitM.pure_def, GitM.pure,
    getStashEntryMatchingSha_ok exec sha s se hlog, hfind]

theorem dropDesktopStashEntry_present (exec : Exec) (sha s se d1 d2 : String)
    (entry : StashEntry)
    (hlog : exec getStashesArgs = { exitCode := 0, stdout := s, stderr := se })
    (hfind : ((parseLog s).filterMap toDesktopEntry).find? (fun e => e.stashSha == sha)
      = some entry)
    (hdrop : exec ["stash", "drop", entry.name] = { exitCode := 0, stdout := d1, stderr := d2 }) :
    dropDesktopStashEntry sha exec =
      (Except.ok (), [getStashesArgs, ["stash", "drop", entry.name]]) := by
  unfold dropDesktopStashEntry
  simp [GitM.bind_def, GitM.bind, GitM.pure_def, GitM.pure,
    getStashEntryMatchingSha_ok exec sha s se hlog, hfind, gitRun, hdrop]

theorem popStashEntry_absent (exec : Exec) (sha s se : String)
    (hlog : exec getStashesArgs = { exitCode := 0, stdout := s, stderr := se })
    (hfind : ((parseLog s).filterMap toDesktopEntry).find? (fun e => e.stashSha == sha) = none) :
    popStashEntry sha exec = (Except.ok (), [getStashesArgs]) := by
  unfold popStashEntry
  simp [GitM.bind_def, GitM.bind, GitM.pure_def, GitM.pure,
    getStashEntryMatchingSha_ok exec sha s se hlog, hfind]

theorem popStashEntry_conflictQuirk (exec : Exec) (sha s se po d1 d2 : String)
    (entry : StashEntry)
    (hlog : exec getStashesArgs = { exitCode := 0, stdout := s, stderr := se })
    (hfind : ((parseLog s).filterMap toDesktopEntry).find? (fun e => e.stashSha == sha)
      = some entry)
    (hpop : exec ["stash", "pop", "--quiet", entry.name]
      = { exitCode := 1, stdout := po, stderr := "" })
    (hdrop : exec ["stash", "drop", entry.name] = { exitCode := 0, stdout := d1, stderr := d2 }) :
    popStashEntry sha exec =
      (Except.ok (), [getStashesArgs, ["stash", "pop", "--quiet", entry.name],
                      getStashesArgs, ["stash", "drop", entry.name]]) := by
  unfold popStashEntry
  simp [GitM.bind_def, GitM.bind, GitM.pure_def, GitM.pure,
    getStashEntryMatchingSha_ok exec sha s se hlog, hfind, gitRun, hpop,
    dropDesktopStashEntry_present exec sha s se d1 d2 entry hlog hfind hdrop]

theorem popStashEntry_fatal (exec : Exec) (sha s se po es : String)
    (entry : StashEntry)
    (hlog : exec getStashesArgs = { exitCode := 0, stdout := s, stderr := se })
    (hfind : ((parseLog s).filterMap toDesktopEntry).find? (fun e => e.stashSha == sha)
      = some entry)
    (hpop : exec ["stash", "pop", "--quiet", entry.name]
      = { exitCode := 1, stdout := po, stderr := es })
    (hlen : 0 < es.length) :
    popStashEntry sha exec =
      (Except.error { result := { exitCode := 1, stdout := po, stderr := es },
                      args := ["stash", "pop", "--quiet", entry.name] },
       [getStashesArgs, ["stash", "pop", "--quiet", entry.name]]) := by
  unfold popStashEntry
  simp [GitM.bind_def, GitM.bind, GitM.pure_def, GitM.pure, GitM.throwError,
    getStashEntryMatchingSha_ok exec sha s se hlog, hfind, gitRun, hpop, hlen]

/-- The argument list of step 1 of `moveStashEntry` (commit-object
creation). -/
def moveStashCommitTreeArgs (entry : StashEntry) (branchName : String) : List String :=
  ["commit-tree"] ++ entry.parents.flatMap (fun p => ["-p", p]) ++
    ["-m", "On " ++ branchName ++ ": " ++ createDesktopStashMessage branchName,
     "--no-gpg-sign", entry.tree]

/-- The argument list of step 2 of `moveStashEntry` (`stash store`),
given the stdout of step 1. -/
def moveStashStoreArgs (branchName commitStdout : String) : List String :=
  ["stash", "store", "-m", "On " ++ branchName ++ ": " ++ createDesktopStashMessage branchName,
   strTrim commitStdout]

/-- Claim C3.  When step 1 of `moveStashEntry` (commit-object creation)
succeeds and step 2 (`stash store`) fails, the operation surfaces the
store `GitError` to the caller and never invokes step 3: the invocation
log is exactly the commit-tree and store commands — no drop command is
issued, so the original stash entry is never deregistered. -/
theorem moveStashEntry_storeFatal (exec : Exec) (entry : StashEntry)
    (branchName : String) (so1 se1 : String) (c2 : Int) (so2 se2 : String)
    (hct : exec (moveStashCommitTreeArgs entry branchName)
      = { exitCode := 0, stdout := so1, stderr := se1 })
    (hst : exec (moveStashStoreArgs branchName so1)
      = { exitCode := c2, stdout := so2, stderr := se2 })
    (h2 : c2 ≠ 0) :
    moveStashEntry entry branchName exec =
      (Except.error { result := { exitCode := c2, stdout := so2, stderr := se2 },
                      args := moveStashStoreArgs branchName so1 },
       [moveStashCommitTreeArgs entry branchName, moveStashStoreArgs branchName so1]) := by
  unfold moveStashEntry
  unfold moveStashCommitTreeArgs at hct ⊢
  unfold moveStashStoreArgs at hst ⊢
  simp only [List.append_assoc, List.cons_append, List.nil_append] at hct
  simp [GitM.bind_def, GitM.bind, GitM.pure_def, GitM.pure, gitRun, hct, hst, h2]

/-- The argument list of the `stash push` issued by
`createDesktopStashEntry` for a branch name. -/
def stashPushArgs (branchName : String) : List String :=
  ["stash", "push", "-m", createDesktopStashMessage branchName]

theorem createDesktopStashEntry_fatal (branch : Branch ⊕ String)
    (files : List WorkingDirectoryFileChange) (exec : Exec) (so serr : String)
    (hpush : exec (stashPushArgs (branchNameOf branch))
      = { exitCode := 1, stdout := so, stderr := serr })
    (herr : errorPrefixMatches serr = true) :
    createDesktopStashEntry branch files exec =
      (Except.error { result := { exitCode := 1, stdout := so, stderr := serr },
                      args := stashPushArgs (branchNameOf branch) },
       [stashPushArgs (branchNameOf branch)]) := by
  unfold createDesktopStashEntry stageFiles
  unfold stashPushArgs at hpush ⊢
  simp [GitM.bind_def, GitM.bind, GitM.pure_def, GitM.pure, GitM.throwError,
    gitRun, hpush, herr]

theorem createDesktopStashEntry_soft (branch : Branch ⊕ String)
    (files : List WorkingDirectoryFileChange) (exec : Exec) (c : Int) (so serr : String)
    (hpush : exec (stashPushArgs (branchNameOf branch))
      = { exitCode := c, stdout := so, stderr := serr })
    (hok : c = 0 ∨ (c = 1 ∧ errorPrefixMatches serr = false)) :
    createDesktopStashEntry branch files exec =
      (Except.ok (if so = "No local changes to save\n" then false else true),
       [stashPushArgs (branchNameOf branch)]) := by
  unfold createDesktopStashEntry stageFiles
  unfold stashPushArgs at hpush ⊢
  rcases hok with h0 | ⟨h1, herr⟩
  · subst h0
    by_cases hso : so = "No local changes to save\n" <;>
      simp [GitM.bind_def, GitM.bind, GitM.pure_def, GitM.pure, gitRun, hpush, hso]
  · subst h1
    by_cases hso : so = "No local changes to save\n" <;>
      simp [GitM.bind_def, GitM.bind, GitM.pure_def, GitM.pure, gitRun, hpush, herr, hso]

theorem find?_first {α : Type} (p : α → Bool) (pre post : List α) (e : α)
    (hpre : ∀ x ∈ pre, p x = false) (he : p e = true) :
    (pre ++ e :: post).find? p = some e := by
  rw [List.find?_append, List.find?_eq_none.mpr (fun x hx => by simp [hpre x hx]),
    List.find?_cons_of_pos _ he]
  rfl

theorem getLastDesktopStashEntryForBranch_ok (exec : Exec) (branch : Branch ⊕ String)
    (s se : String)
    (hexec : exec getStashesArgs = { exitCode := 0, stdout := s, stderr := se }) :
    getLastDesktopStashEntryForBranch branch exec =
      (Except.ok (((parseLog s).filterMap toDesktopEntry).find?
        (fun x => x.branchName == branchNameOf branch)),
       [getStashesArgs]) := by
  unfold getLastDesktopStashEntryForBranch
  simp [GitM.bind_def, GitM.bind, GitM.pure_def, GitM.pure, getStashes_ok exec s se hexec]

/-! ## Claim C4 -/

/-- Claim C4.  When the stash reflog list query reports exit code 128
(no `refs/stash` reflog), `getStashes` returns the empty result without
raising; for every other non-zero exit code it raises a fatal
`GitError`. -/
theorem getStashes_reflog_exit_policy (exec : Exec) (c : Int) (so se : String)
    (hexec : exec getStashesArgs = { exitCode := c, stdout := so, stderr := se }) :
    (c = 128 →
      getStashes exec =
        (Except.ok { desktopEntries := [], stashEntryCount := 0 }, [getStashesArgs])) ∧
    (c ≠ 0 → c ≠ 128 →
      getStashes exec =
        (Except.error { result := { exitCode := c, stdout := so, stderr := se },
                        args := getStashesArgs },
         [getStashesArgs])) :=
  ⟨fun h128 => getStashesWith_noReflog parseLog exec so se (h128 ▸ hexec),
   fun h0 h128 => getStashesWith_fatal parseLog exec c so se hexec h0 h128⟩

/-- A repository whose reflog query reports exit code 128. -/
def cexecNoReflog : Exec := fun _ =>
  { exitCode := 128, stdout := "", stderr := "fatal: no reflog" }

/-- A repository whose reflog query reports exit code 1. -/
def cexecReadFail : Exec := fun _ =>
  { exitCode := 1, stdout := "", stderr := "fatal: broken" }

/-- Witness for C4: both halves of `getStashes_reflog_exit_policy` on
concrete executors. -/
theorem getStashes_reflog_exit_policy_witness :
    getStashes cexecNoReflog =
      (Except.ok { desktopEntries := [], stashEntryCount := 0 }, [getStashesArgs]) ∧
    getStashes cexecReadFail =
      (Except.error { result := { exitCode := 1, stdout := "", stderr := "fatal: broken" },
                      args := getStashesArgs },
       [getStashesArgs]) :=
  ⟨(getStashes_reflog_exit_policy cexecNoReflog 128 "" "fatal: no reflog" rfl).1 rfl,
   (getStashes_reflog_exit_policy cexecReadFail 1 "" "fatal: broken" rfl).2
     (by decide) (by decide)⟩

/-! ## Claim C5 -/

/-- Claim C5.  A stream that parses into `k` real records plus the one
synthetic trailing record (`k + 1` parsed records in total) yields
`stashEntryCount = k`: the count is the number of parsed records minus
one. -/
theorem getStashes_count_excludes_synthetic (exec : Exec) (s se : String) (k : Nat)
    (hexec : exec getStashesArgs = { exitCode := 0, stdout := s, stderr := se })
    (hk : (parseLog s).length = k + 1) :
    getStashes exec =
      (Except.ok { desktopEntries := (parseLog s).filterMap toDesktopEntry,
                   stashEntryCount := (k : Int) },
       [getStashesArgs]) := by
  rw [getStashes_ok exec s se hexec, hk]
  push_cast
  norm_num

/-- A concrete reflog stream: three real records — desktop entries on
branches `A`, `B`, `A` in LIFO order — plus the synthetic trailing record
left by the final record separator. -/
def sampleStreamABA : String :=
  "stash@{0}\x00sha0\x00On A: !!GitHub_Desktop<A>\x00tree0\x00p0 q0\x01" ++
  "stash@{1}\x00sha1\x00On B: !!GitHub_Desktop<B>\x00tree1\x00p1\x01" ++
  "stash@{2}\x00sha2\x00On A: !!GitHub_Desktop<A>\x00tree2\x00p2\x01"

/-- An executor whose reflog list query returns `sampleStreamABA`. -/
def sampleExecABA : Exec := fun args =>
  if args = getStashesArgs
  then { exitCode := 0, stdout := sampleStreamABA, stderr := "" }
  else { exitCode := 0, stdout := "", stderr := "" }

def sampleEntryA0 : StashEntry :=
  { name := "stash@{0}", stashSha := "sha0", branchName := "A", tree := "tree0",
    parents := ["p0", "q0"], files := StashedFileChanges.notLoaded }

def sampleEntryB1 : StashEntry :=
  { name := "stash@{1}", stashSha := "sha1", branchName := "B", tree := "tree1",
    parents := ["p1"], files := StashedFileChanges.notLoaded }

def sampleEntryA2 : StashEntry :=
  { name := "stash@{2}", stashSha := "sha2", branchName := "A", tree := "tree2",
    parents := ["p2"], files := StashedFileChanges.notLoaded }

/-- Witness for C5: the sample stream parses into 4 records (3 real ones
plus the synthetic trailing record) and the reported count is 3. -/
theorem getStashes_count_excludes_synthetic_witness :
    getStashes sampleExecABA =
      (Except.ok { desktopEntries := (parseLog sampleStreamABA).filterMap toDesktopEntry,
                   stashEntryCount := (3 : Int) },
       [getStashesArgs]) :=
  getStashes_count_excludes_synthetic sampleExecABA sampleStreamABA "" 3 rfl (by decide)

/-! ## Claim C10 -/

/-- Claim C10.  `getStashes` computes `stashEntryCount` as the number of
parsed records minus one unconditionally: a parse function yielding zero
records from a successful (exit 0) log invocation produces
`stashEntryCount = -1`, a negative count. -/
theorem getStashesWith_empty_parse_negative_count (parse : String → List RawEntry)
    (exec : Exec) (s se : String)
    (hexec : exec getStashesArgs = { exitCode := 0, stdout := s, stderr := se })
    (hparse : parse s = []) :
    getStashesWith parse exec =
      (Except.ok { desktopEntries := [], stashEntryCount := (-1 : Int) }, [getStashesArgs]) := by
  rw [getStashesWith_ok parse exec s se hexec, hparse]
  norm_num

/-- A parse function yielding no records at all. -/
def emptyParse : String → List RawEntry := fun _ => []

/-- An executor whose reflog list query succeeds with an empty stream. -/
def cexecOkEmpty : Exec := fun _ => { exitCode := 0, stdout := "", stderr := "" }

/-- Witness for C10: a zero-record parse gives the negative count `-1`. -/
theorem getStashesWith_empty_parse_negative_count_witness :
    getStashesWith emptyParse cexecOkEmpty =
      (Except.ok { desktopEntries := [], stashEntryCount := (-1 : Int) }, [getStashesArgs]) :=
  getStashesWith_empty_parse_negative_count emptyParse cexecOkEmpty "" "" rfl rfl

/-! ## Claim C7 -/

/-- Claim C7.  `getLastDesktopStashEntryForBranch` returns the first entry
of the LIFO-ordered owned list whose `branchName` matches (the most recent
one), and `null` when no entry matches. -/
theorem getLastEntryForBranch_first_match (exec : Exec) (branch : Branch ⊕ String)
    (s se : String)
    (hexec : exec getStashesArgs = { exitCode := 0, stdout := s, stderr := se }) :
    (∀ pre e post,
      (parseLog s).filterMap toDesktopEntry = pre ++ e :: post →
      e.branchName = branchNameOf branch →
      (∀ x ∈ pre, x.branchName ≠ branchNameOf branch) →
      getLastDesktopStashEntryForBranch branch exec =
        (Except.ok (some e), [getStashesArgs])) ∧
    ((∀ x ∈ (parseLog s).filterMap toDesktopEntry, x.branchName ≠ branchNameOf branch) →
      getLastDesktopStashEntryForBranch branch exec =
        (Except.ok none, [getStashesArgs])) := by
  constructor
  · intro pre e post hsplit he hpre
    rw [getLastDesktopStashEntryForBranch_ok exec branch s se hexec, hsplit,
      find?_first _ pre post e (fun x hx => by simp [hpre x hx]) (by simp [he])]
  · intro hnone
    rw [getLastDesktopStashEntryForBranch_ok exec branch s se hexec,
      List.find?_eq_none.mpr (fun x hx => by simp [hnone x hx])]

/-- Witness for C7: on owned entries for branches `[A, B, A]` in LIFO
order, querying `A` returns the first `A` entry (`stash@{0}`), not the
last. -/
theorem getLastEntryForBranch_first_match_witness :
    getLastDesktopStashEntryForBranch (Sum.inr "A") sampleExecABA =
      (Except.ok (some sampleEntryA0), [getStashesArgs]) :=
  (getLastEntryForBranch_first_match sampleExecABA (Sum.inr "A") sampleStreamABA "" rfl).1
    [] sampleEntryA0 [sampleEntryB1, sampleEntryA2] (by decide) rfl (by decide)

/-! ## Claim C8 -/

/-- Claim C8 (amended).  For a `stashSha` with no matching entry in the
owned-entry list, `dropDesktopStashEntry` issues no drop command and
returns normally, and `popStashEntry` issues no pop command and completes
silently: the only external invocation either operation performs is the
catalog list query it needs to discover that the entry is absent. -/
theorem dropPop_absent_noop (exec : Exec) (sha s se : String)
    (hexec : exec getStashesArgs = { exitCode := 0, stdout := s, stderr := se })
    (hfind : ((parseLog s).filterMap toDesktopEntry).find? (fun e => e.stashSha == sha) = none) :
    dropDesktopStashEntry sha exec = (Except.ok (), [getStashesArgs]) ∧
    popStashEntry sha exec = (Except.ok (), [getStashesArgs]) :=
  ⟨dropDesktopStashEntry_absent exec sha s se hexec hfind,
   popStashEntry_absent exec sha s se hexec hfind⟩

/-- Witness for C8: dropping and popping an absent sha only issues the
catalog query and succeeds. -/
theorem dropPop_absent_noop_witness :
    dropDesktopStashEntry "absent-sha" sampleExecABA = (Except.ok (), [getStashesArgs]) ∧
    popStashEntry "absent-sha" sampleExecABA = (Except.ok (), [getStashesArgs]) :=
  dropPop_absent_noop sampleExecABA "absent-sha" sampleStreamABA "" rfl (by decide)

/-- Counterexample to C8 as stated: dropping an absent sha does perform an
external invocation — the catalog list query needed to resolve the sha —
so "performs no external invocation" is literally false; only the claim
about issuing no drop (and no pop) command holds. -/
theorem dropPop_absent_noop_counterexample :
    ((parseLog sampleStreamABA).filterMap toDesktopEntry).find?
      (fun e => e.stashSha == "absent-sha") = none ∧
    (dropDesktopStashEntry "absent-sha" sampleExecABA).2 = [getStashesArgs] ∧
    getStashesArgs ≠ [] :=
  ⟨by decide, rfl, by decide⟩

/-! ## Claim C2 -/

/-- Claim C2.  Popping a resolvable `stashSha`: when the pop command
reports exit code 1 with empty stderr, `popStashEntry` issues exactly one
subsequent drop invocation for that same sha's entry and completes without
raising (the full invocation log is the list query, the pop, the re-query,
and the single drop); when exit code 1 comes with non-empty stderr,
`popStashEntry` raises a fatal `GitError` and issues no drop. -/
theorem popStashEntry_exit1_policy (exec : Exec) (sha s se : String) (entry : StashEntry)
    (hexec : exec getStashesArgs = { exitCode := 0, stdout := s, stderr := se })
    (hfind : ((parseLog s).filterMap toDesktopEntry).find? (fun e => e.stashSha == sha)
      = some entry) :
    (∀ po d1 d2 : String,
      exec ["stash", "pop", "--quiet", entry.name]
        = { exitCode := 1, stdout := po, stderr := "" } →
      exec ["stash", "drop", entry.name] = { exitCode := 0, stdout := d1, stderr := d2 } →
      popStashEntry sha exec =
        (Except.ok (), [getStashesArgs, ["stash", "pop", "--quiet", entry.name],
                        getStashesArgs, ["stash", "drop", entry.name]])) ∧
    (∀ po es : String,
      exec ["stash", "pop", "--quiet", entry.name]
        = { exitCode := 1, stdout := po, stderr := es } →
      0 < es.length →
      popStashEntry sha exec =
        (Except.error { result := { exitCode := 1, stdout := po, stderr := es },
                        args := ["stash", "pop", "--quiet", entry.name] },
         [getStashesArgs, ["stash", "pop", "--quiet", entry.name]])) :=
  ⟨fun po d1 d2 hpop hdrop =>
    popStashEntry_conflictQuirk exec sha s se po d1 d2 entry hexec hfind hpop hdrop,
   fun po es hpop hlen =>
    popStashEntry_fatal exec sha s se po es entry hexec hfind hpop hlen⟩

/-- An executor where popping `stash@{0}` hits the conflict quirk: exit
code 1, empty stderr, and the stash entry still listed. -/
def cexecPopQuirk : Exec := fun args =>
  if args = getStashesArgs
  then { exitCode := 0, stdout := sampleStreamABA, stderr := "" }
  else if args = ["stash", "pop", "--quiet", "stash@{0}"]
  then { exitCode := 1, stdout := "CONFLICT (content)", stderr := "" }
  else { exitCode := 0, stdout := "", stderr := "" }

/-- An executor where popping `stash@{0}` fails with exit code 1 and a
non-empty stderr. -/
def cexecPopFatal : Exec := fun args =>
  if args = getStashesArgs
  then { exitCode := 0, stdout := sampleStreamABA, stderr := "" }
  else if args = ["stash", "pop", "--quiet", "stash@{0}"]
  then { exitCode := 1, stdout := "", stderr := "error: could not restore" }
  else { exitCode := 0, stdout := "", stderr := "" }

/-- Witness for C2: both halves of `popStashEntry_exit1_policy` on
concrete executors. -/
theorem popStashEntry_exit1_policy_witness :
    popStashEntry "sha0" cexecPopQuirk =
      (Except.ok (), [getStashesArgs, ["stash", "pop", "--quiet", "stash@{0}"],
                      getStashesArgs, ["stash", "drop", "stash@{0}"]]) ∧
    popStashEntry "sha0" cexecPopFatal =
      (Except.error { result := { exitCode := 1, stdout := "",
                                  stderr := "error: could not restore" },
                      args := ["stash", "pop", "--quiet", "stash@{0}"] },
       [getStashesArgs, ["stash", "pop", "--quiet", "stash@{0}"]]) :=
  ⟨(popStashEntry_exit1_policy cexecPopQuirk "sha0" sampleStreamABA "" sampleEntryA0
      rfl (by decide)).1 "CONFLICT (content)" "" "" rfl rfl,
   (popStashEntry_exit1_policy cexecPopFatal "sha0" sampleStreamABA "" sampleEntryA0
      rfl (by decide)).2 "" "error: could not restore" rfl (by decide)⟩

/-- An executor for which step 1 of a move (commit-tree) succeeds with a
commit id on stdout and step 2 (`stash store`) fails. -/
def cexecMoveStoreFail : Exec := fun args =>
  if args = moveStashCommitTreeArgs sampleEntryA0 "B"
  then { exitCode := 0, stdout := "deadbeef\n", stderr := "" }
  else if args = moveStashStoreArgs "B" "deadbeef\n"
  then { exitCode := 1, stdout := "", stderr := "error: store failed" }
  else { exitCode := 0, stdout := "", stderr := "" }

/-- Witness for C3: a concrete move whose store step fails raises the
store error and the invocation log stops at
`[commit-tree, stash store]` — no drop. -/
theorem moveStashEntry_storeFatal_witness :
    moveStashEntry sampleEntryA0 "B" cexecMoveStoreFail =
      (Except.error { result := { exitCode := 1, stdout := "",
                                  stderr := "error: store failed" },
                      args := moveStashStoreArgs "B" "deadbeef\n" },
       [moveStashCommitTreeArgs sampleEntryA0 "B", moveStashStoreArgs "B" "deadbeef\n"]) :=
  moveStashEntry_storeFatal cexecMoveStoreFail sampleEntryA0 "B" "deadbeef\n" "" 1 ""
    "error: store failed" rfl rfl (by decide)

/-! ## Claim C6 -/

/-- Claim C6.  `createDesktopStashEntry` exit policy: on exit code 1 it
raises a fatal `GitError` exactly when some stderr line begins with
`error: `; when it completes (exit 0, or the soft success of exit 1
without such a line) it returns `false` exactly when stdout is
`"No local changes to save\n"`, and `true` otherwise. -/
theorem createDesktopStashEntry_exit_policy (branch : Branch ⊕ String)
    (files : List WorkingDirectoryFileChange) (exec : Exec) (c : Int) (so serr : String)
    (hpush : exec (stashPushArgs (branchNameOf branch))
      = { exitCode := c, stdout := so, stderr := serr }) :
    (c = 1 → errorPrefixMatches serr = true →
      createDesktopStashEntry branch files exec =
        (Except.error { result := { exitCode := 1, stdout := so, stderr := serr },
                        args := stashPushArgs (branchNameOf branch) },
         [stashPushArgs (branchNameOf branch)])) ∧
    ((c = 0 ∨ (c = 1 ∧ errorPrefixMatches serr = false)) →
      so = "No local changes to save\n" →
      createDesktopStashEntry branch files exec =
        (Except.ok false, [stashPushArgs (branchNameOf branch)])) ∧
    ((c = 0 ∨ (c = 1 ∧ errorPrefixMatches serr = false)) →
      so ≠ "No local changes to save\n" →
      createDesktopStashEntry branch files exec =
        (Except.ok true, [stashPushArgs (branchNameOf branch)])) := by
  refine ⟨fun h1 herr => ?_, fun hok hso => ?_, fun hok hso => ?_⟩
  · subst h1
    exact createDesktopStashEntry_fatal branch files exec so serr hpush herr
  · have h := createDesktopStashEntry_soft branch files exec c so serr hpush hok
    rw [if_pos hso] at h
    exact h
  · have h := createDesktopStashEntry_soft branch files exec c so serr hpush hok
    rw [if_neg hso] at h
    exact h

/-- An executor whose `stash push` fails with exit code 1 and an
`error: `-prefixed stderr line. -/
def cexecPushError : Exec := fun _ =>
  { exitCode := 1, stdout := "", stderr := "warning: x\nerror: unable to stash" }

/-- An executor whose `stash push` reports nothing to save. -/
def cexecPushNoChanges : Exec := fun _ =>
  { exitCode := 0, stdout := "No local changes to save\n", stderr := "" }

/-- An executor whose `stash push` succeeds with exit code 1 and only
informational stderr (the soft-success quirk). -/
def cexecPushSoft : Exec := fun _ =>
  { exitCode := 1, stdout := "Saved working directory state\n",
    stderr := "warning: something benign" }

/-- Witness for C6: the three branches of
`createDesktopStashEntry_exit_policy` on concrete executors. -/
theorem createDesktopStashEntry_exit_policy_witness :
    createDesktopStashEntry (Sum.inr "main") [] cexecPushError =
      (Except.error { result := { exitCode := 1, stdout := "",
                                  stderr := "warning: x\nerror: unable to stash" },
                      args := stashPushArgs "main" },
       [stashPushArgs "main"]) ∧
    createDesktopStashEntry (Sum.inr "main") [] cexecPushNoChanges =
      (Except.ok false, [stashPushArgs "main"]) ∧
    createDesktopStashEntry (Sum.inr "main") [] cexecPushSoft =
      (Except.ok true, [stashPushArgs "main"]) :=
  ⟨(createDesktopStashEntry_exit_policy (Sum.inr "main") [] cexecPushError 1 ""
      "warning: x\nerror: unable to stash" rfl).1 rfl (by decide),
   (createDesktopStashEntry_exit_policy (Sum.inr "main") [] cexecPushNoChanges 0
      "No local changes to save\n" "" rfl).2.1 (Or.inl rfl) rfl,
   (createDesktopStashEntry_exit_policy (Sum.inr "main") [] cexecPushSoft 1
      "Saved working directory state\n" "warning: something benign" rfl).2.2
     (Or.inr ⟨rfl, by decide⟩) (by decide)⟩
